import Mathlib

/-!
Verification development for the provider registry of omnidotdev/agent-core
(src/registry/{types,factory,defaults,mod}.rs), shallowly embedded in Lean.

Strings are Lean strings; the process environment is an explicit association
list passed to the functions that read it; the boxed client trait objects are
an abstract type parameter, and the external client constructors (which live
outside the registry module) are a record of abstract fallible constructors.
-/

namespace AgentCore

/-- Provider API type (src/registry/types.rs, enum ProviderApiType):
named variants for each natively understood wire format plus a catch-all
variant carrying an arbitrary string tag. -/
inductive ProviderApiType where
  | Anthropic
  | OpenAi
  | Google
  | Groq
  | Mistral
  | Synapse
  | Custom (s : String)
deriving DecidableEq

/-- Parsing (src/registry/types.rs, impl From for ProviderApiType):
a case-sensitive match of the input against the six canonical names,
falling through to the catch-all carrying the input verbatim.
Deserialize delegates to this same function. -/
def ProviderApiType.from_string (s : String) : ProviderApiType :=
  if s = "anthropic" then .Anthropic
  else if s = "openai" then .OpenAi
  else if s = "google" then .Google
  else if s = "groq" then .Groq
  else if s = "mistral" then .Mistral
  else if s = "synapse" then .Synapse
  else .Custom s

/-- Rendering (src/registry/types.rs, impl Display and impl Serialize,
which emit the same strings): the canonical lowercase name for named
variants, the carried string for the catch-all. -/
def ProviderApiType.to_string : ProviderApiType → String
  | .Anthropic => "anthropic"
  | .OpenAi => "openai"
  | .Google => "google"
  | .Groq => "groq"
  | .Mistral => "mistral"
  | .Synapse => "synapse"
  | .Custom s => s

/-- The six canonical names recognized by the parser, in match order. -/
def canonicalNames : List String :=
  ["anthropic", "openai", "google", "groq", "mistral", "synapse"]

/-- Individual provider configuration (src/registry/types.rs,
struct ProviderConfig). Every field is optional in the source
(api_type defaults to Anthropic). -/
structure ProviderConfig where
  api_type : ProviderApiType
  base_url : Option String
  api_key_env : Option String
  api_key : Option String
deriving DecidableEq

/-- Model information (src/registry/types.rs, struct ModelInfo). -/
structure ModelInfo where
  id : String
  provider : String
deriving DecidableEq

/-- The process environment, as read by std env var lookup: an association
list from variable name to value; a variable set to the empty string is
present. -/
abbrev Env := List (String × String)

/-- Environment variable lookup (models std::env::var returning Ok). -/
def envVar (env : Env) (n : String) : Option String :=
  (env.find? (fun p => p.1 == n)).map Prod.snd

/-- Resolve API key for a provider config (src/registry/factory.rs,
resolve_api_key): the environment variable named by api_key_env when that
variable is present, otherwise the direct api_key value. -/
def resolve_api_key (env : Env) (config : ProviderConfig) : Option String :=
  match config.api_key_env with
  | some env_name =>
    match envVar env env_name with
    | some key => some key
    | none => config.api_key
  | none => config.api_key

/-- Factory function for creating provider instances
(src/registry/factory.rs, type ProviderFactoryFn); the client type is the
abstract parameter, and anyhow errors are modelled as strings. -/
abbrev ProviderFactoryFn (α : Type) := String → ProviderConfig → Except String α

/-- Provider registry (src/registry/factory.rs, struct ProviderRegistry):
the custom_factories hash map, modelled as an association list in which the
most recent insertion for a key shadows older ones. -/
structure ProviderRegistry (α : Type) where
  custom_factories : List (String × ProviderFactoryFn α)

/-- Create a new empty registry (ProviderRegistry::new, also Default). -/
def ProviderRegistry.new (α : Type) : ProviderRegistry α := ⟨[]⟩

/-- Register a factory for a custom provider type
(ProviderRegistry::register_factory): unconditional insert, overwriting any
earlier entry under the same key. -/
def ProviderRegistry.register_factory {α : Type} (reg : ProviderRegistry α)
    (type_name : String) (factory : ProviderFactoryFn α) : ProviderRegistry α :=
  ⟨(type_name, factory) :: reg.custom_factories.filter (fun p => p.1 != type_name)⟩

/-- Factory lookup in custom_factories (models HashMap::get). -/
def ProviderRegistry.getFactory {α : Type} (reg : ProviderRegistry α)
    (k : String) : Option (ProviderFactoryFn α) :=
  (reg.custom_factories.find? (fun p => p.1 == k)).map Prod.snd

/-- Modelled from the spec: the built-in client constructors
AnthropicProvider.new, OpenAiProvider.with_config and
UnifiedProvider.google/groq/mistral live in the providers module, outside
the registry sources; per the spec a client is built from a key (optional,
with an optional base URL, for the OpenAI-compatible kind) and construction
may fail, so they are abstract fallible constructors over the abstract
client type. -/
structure Providers (α : Type) where
  anthropicNew : String → Except String α
  openAiWithConfig : Option String → Option String → Except String α
  unifiedGoogle : String → Except String α
  unifiedGroq : String → Except String α
  unifiedMistral : String → Except String α

/-- The error message of the missing-key branches of create_provider. -/
def missingKeyMsg (name : String) : String :=
  "API key not set for provider \x27" ++ name ++ "\x27"

/-- The error message of the Synapse branch when no factory is registered. -/
def synapseMissingMsg : String :=
  "synapse provider not available — register a factory for \x27synapse\x27 (e.g., via synapse-client with the agent-core feature)"

/-- The error message of the Custom branch when no factory is registered. -/
def noFactoryMsg (type_name : String) : String :=
  "no factory registered for custom provider type \x27" ++ type_name ++ "\x27"

/-- Create a provider instance from a name and config
(ProviderRegistry::create_provider): branch on the API type; the four
key-requiring built-in kinds resolve the key and fail with a missing-key
error naming the provider when none resolves; OpenAi passes the optional
key and base URL straight to its constructor; Synapse and Custom delegate
to the registered factory, failing when none is registered. -/
def create_provider {α : Type} (reg : ProviderRegistry α) (ext : Providers α)
    (env : Env) (name : String) (config : ProviderConfig) : Except String α :=
  match config.api_type with
  | .Anthropic =>
    match resolve_api_key env config with
    | some key => ext.anthropicNew key
    | none => .error (missingKeyMsg name)
  | .OpenAi =>
    ext.openAiWithConfig (resolve_api_key env config) config.base_url
  | .Google =>
    match resolve_api_key env config with
    | some key => ext.unifiedGoogle key
    | none => .error (missingKeyMsg name)
  | .Groq =>
    match resolve_api_key env config with
    | some key => ext.unifiedGroq key
    | none => .error (missingKeyMsg name)
  | .Mistral =>
    match resolve_api_key env config with
    | some key => ext.unifiedMistral key
    | none => .error (missingKeyMsg name)
  | .Synapse =>
    match reg.getFactory "synapse" with
    | some factory => factory name config
    | none => .error synapseMissingMsg
  | .Custom type_name =>
    match reg.getFactory type_name with
    | some factory => factory name config
    | none => .error (noFactoryMsg type_name)

/-- The default provider configurations (src/registry/defaults.rs,
default_providers), with the insertions of the source in source order; all
eleven keys are distinct, so the association list is exactly the key-value
set of the hash map the source builds. -/
def default_providers : List (String × ProviderConfig) :=
  [("anthropic", ⟨.Anthropic, none, some "ANTHROPIC_API_KEY", none⟩),
   ("openai", ⟨.OpenAi, none, some "OPENAI_API_KEY", none⟩),
   ("ollama", ⟨.OpenAi, some "http://localhost:11434/v1", none, none⟩),
   ("lmstudio", ⟨.OpenAi, some "http://localhost:1234/v1", none, none⟩),
   ("groq", ⟨.Groq, none, some "GROQ_API_KEY", none⟩),
   ("google", ⟨.Google, none, some "GOOGLE_API_KEY", none⟩),
   ("mistral", ⟨.Mistral, none, some "MISTRAL_API_KEY", none⟩),
   ("openrouter", ⟨.OpenAi, some "https://openrouter.ai/api/v1", some "OPENROUTER_API_KEY", none⟩),
   ("together", ⟨.OpenAi, some "https://api.together.xyz/v1", some "TOGETHER_API_KEY", none⟩),
   ("kimi", ⟨.OpenAi, some "https://api.moonshot.cn/v1", some "MOONSHOT_API_KEY", none⟩),
   ("synapse", ⟨.Synapse, some "https://gateway.synapse.omni.dev", some "SYNAPSE_API_KEY", none⟩)]

/-- The default model definitions (src/registry/defaults.rs,
default_models), in source order. -/
def default_models : List ModelInfo :=
  [⟨"claude-sonnet-4-20250514", "anthropic"⟩,
   ⟨"claude-opus-4-20250514", "anthropic"⟩,
   ⟨"claude-3-5-haiku-20241022", "anthropic"⟩,
   ⟨"gpt-4o", "openai"⟩,
   ⟨"gpt-4-turbo", "openai"⟩,
   ⟨"gpt-3.5-turbo", "openai"⟩,
   ⟨"o1", "openai"⟩,
   ⟨"o1-mini", "openai"⟩,
   ⟨"llama-3.3-70b-versatile", "groq"⟩,
   ⟨"llama-3.1-8b-instant", "groq"⟩,
   ⟨"mixtral-8x7b-32768", "groq"⟩,
   ⟨"gemini-2.0-flash", "google"⟩,
   ⟨"gemini-1.5-pro", "google"⟩,
   ⟨"mistral-large-latest", "mistral"⟩,
   ⟨"codestral-latest", "mistral"⟩,
   ⟨"meta-llama/Llama-3.3-70B-Instruct-Turbo", "together"⟩,
   ⟨"Qwen/Qwen2.5-Coder-32B-Instruct", "together"⟩,
   ⟨"kimi-k2.5", "kimi"⟩,
   ⟨"moonshot-v1-128k", "kimi"⟩,
   ⟨"moonshot-v1-32k", "kimi"⟩]

/-- Models str::starts_with on literal prefixes: the prefix relation on the
character sequences of the two strings. -/
def strStartsWith (s p : String) : Bool := p.data.isPrefixOf s.data

/-- Models str::to_lowercase: lower-case every character. The lowering of
an individual character is ASCII lowering, which agrees with the Unicode
lowering the source performs on every ASCII input, and every prefix the
detection below tests is ASCII. -/
def toLowerStr (s : String) : String := ⟨s.data.map Char.toLower⟩

/-- Detect provider by model ID prefix (src/registry/defaults.rs,
detect_provider_by_prefix): lower-case the id, then test the literal
prefixes in source order and return the first match. -/
def detect_provider_by_prefix (model_id : String) : Option String :=
  let lower := toLowerStr model_id
  if strStartsWith lower "claude" then some "anthropic"
  else if strStartsWith lower "gpt" || strStartsWith lower "o1" then some "openai"
  else if strStartsWith lower "kimi" || strStartsWith lower "moonshot" then some "kimi"
  else if strStartsWith lower "gemini" then some "google"
  else if strStartsWith lower "llama" || strStartsWith lower "mixtral" then some "groq"
  else if strStartsWith lower "mistral" || strStartsWith lower "codestral" then some "mistral"
  else none

/-! Concrete fixtures used to instantiate the abstract client type in
witnesses and counterexamples. -/

/-- External constructors that always succeed, over Nat clients. -/
def extOk : Providers Nat :=
  ⟨fun _ => .ok 0, fun _ _ => .ok 0, fun _ => .ok 0, fun _ => .ok 0, fun _ => .ok 0⟩

/-- A factory that always succeeds with the client 7. -/
def okFactory : ProviderFactoryFn Nat := fun _ _ => .ok 7

/-- A factory that always fails, echoing the provider name it was given. -/
def boomFactory : ProviderFactoryFn Nat := fun n _ => .error ("boom " ++ n)

/-- A factory whose result depends on the api_type field of the config it
receives. -/
def apiTypeSensitiveFactory : ProviderFactoryFn Nat :=
  fun _ cfg => if cfg.api_type = .Synapse then .ok 1 else .ok 2

/-- Claim C1 counterexample: Synapse is a named, non-Custom kind, yet with a
config whose key resolution yields no key, create_provider does not fail
with a missing-credential error: with a registered synapse factory it
succeeds outright; likewise the OpenAi kind hands the unresolved (absent)
key to its constructor instead of failing. -/
theorem c1_counterexample :
    resolve_api_key [] ⟨.Synapse, none, none, none⟩ = none ∧
    create_provider (⟨[("synapse", okFactory)]⟩ : ProviderRegistry Nat) extOk [] "p"
      ⟨.Synapse, none, none, none⟩ = .ok 7 ∧
    resolve_api_key [] ⟨.OpenAi, none, none, none⟩ = none ∧
    create_provider (⟨[]⟩ : ProviderRegistry Nat) extOk [] "p"
      ⟨.OpenAi, none, none, none⟩ = extOk.openAiWithConfig none none :=
  ⟨rfl, rfl, rfl, rfl⟩

/-- Claim C1 (amended): for the key-requiring built-in kinds Anthropic,
Google, Groq and Mistral, calling create_provider with a config whose key
resolution yields no key fails with the missing-credential error naming
the given provider name. -/
theorem c1_missing_key_error {α : Type} (reg : ProviderRegistry α) (ext : Providers α)
    (env : Env) (name : String) (config : ProviderConfig)
    (hkind : config.api_type = .Anthropic ∨ config.api_type = .Google ∨
      config.api_type = .Groq ∨ config.api_type = .Mistral)
    (hkey : resolve_api_key env config = none) :
    create_provider reg ext env name config = .error (missingKeyMsg name) := by
  rcases hkind with h | h | h | h <;> simp [create_provider, h, hkey]

/-- Claim C1 witness: a concrete Anthropic config with no key source fails
with the message naming the provider. -/
theorem c1_missing_key_error_witness :
    create_provider (⟨[]⟩ : ProviderRegistry Nat) extOk [] "acme"
      ⟨.Anthropic, none, none, none⟩ = .error (missingKeyMsg "acme") :=
  c1_missing_key_error ⟨[]⟩ extOk [] "acme" ⟨.Anthropic, none, none, none⟩ (Or.inl rfl) rfl

/-- Claim C2 counterexample: the round trip is not the identity on the
catch-all value carrying a canonical name: Custom "anthropic" renders to
"anthropic", which parses back to the named Anthropic variant. -/
theorem c2_counterexample :
    ProviderApiType.from_string (ProviderApiType.to_string (.Custom "anthropic")) ≠
      .Custom "anthropic" ∧
    ProviderApiType.from_string (ProviderApiType.to_string (.Custom "anthropic")) =
      .Anthropic := by
  constructor <;> decide

/-- Claim C2 (amended): from_string after to_string is the identity for
every named variant and for every catch-all value whose carried string is
not one of the canonical names; the excluded catch-all values parse back
to the corresponding named variant instead. -/
theorem c2_round_trip (v : ProviderApiType)
    (h : ∀ s, v = ProviderApiType.Custom s → s ∉ canonicalNames) :
    ProviderApiType.from_string (ProviderApiType.to_string v) = v := by
  cases v with
  | Anthropic => decide
  | OpenAi => decide
  | Google => decide
  | Groq => decide
  | Mistral => decide
  | Synapse => decide
  | Custom s =>
    have hs := h s rfl
    simp only [canonicalNames, List.mem_cons, List.not_mem_nil, or_false] at hs
    push_neg at hs
    obtain ⟨h1, h2, h3, h4, h5, h6⟩ := hs
    simp [ProviderApiType.from_string, ProviderApiType.to_string, h1, h2, h3, h4, h5, h6]

/-- Claim C2 witness: the round trip at the non-colliding catch-all value
Custom "zzz". -/
theorem c2_round_trip_witness :
    ProviderApiType.from_string (ProviderApiType.to_string (.Custom "zzz")) =
      .Custom "zzz" :=
  c2_round_trip (.Custom "zzz") (fun s hs => by injection hs with h; subst h; decide)

/-- Claim C3: resolve_api_key returns the value of the environment variable
named by api_key_env whenever that variable is present (even with an empty
value), regardless of api_key; with the variable absent, or api_key_env
unset, it returns api_key (which is none when absent). -/
theorem c3_resolve_precedence (env : Env) (config : ProviderConfig) :
    (∀ n v, config.api_key_env = some n → envVar env n = some v →
      resolve_api_key env config = some v) ∧
    (∀ n, config.api_key_env = some n → envVar env n = none →
      resolve_api_key env config = config.api_key) ∧
    (config.api_key_env = none → resolve_api_key env config = config.api_key) := by
  refine ⟨fun n v hn hv => ?_, fun n hn hv => ?_, fun hn => ?_⟩
  · simp [resolve_api_key, hn, hv]
  · simp [resolve_api_key, hn, hv]
  · simp [resolve_api_key, hn]

/-- Claim C3 witness: an environment variable present with the empty value
takes precedence over a non-empty inline api_key. -/
theorem c3_resolve_precedence_witness :
    resolve_api_key [("K", "")] ⟨.Anthropic, none, some "K", some "inline"⟩ = some "" :=
  (c3_resolve_precedence [("K", "")] ⟨.Anthropic, none, some "K", some "inline"⟩).1
    "K" "" rfl rfl

/-- Claim C4: for a config with the catch-all kind Custom t, create_provider
fails with the no-factory error naming t when no factory is registered for
t, returns exactly the registered factory applied to (name, config)
otherwise, and register_factory t f makes f the factory looked up at t. -/
theorem c4_custom_dispatch {α : Type} (reg : ProviderRegistry α) (ext : Providers α)
    (env : Env) (name t : String) (config : ProviderConfig)
    (ht : config.api_type = .Custom t) :
    (reg.getFactory t = none →
      create_provider reg ext env name config = .error (noFactoryMsg t)) ∧
    (∀ f, reg.getFactory t = some f →
      create_provider reg ext env name config = f name config) ∧
    (∀ f, (reg.register_factory t f).getFactory t = some f) := by
  refine ⟨fun h => ?_, fun f h => ?_, fun f => ?_⟩
  · simp [create_provider, ht, h]
  · simp [create_provider, ht, h]
  · simp [ProviderRegistry.register_factory, ProviderRegistry.getFactory, List.find?]

/-- Claim C4 witness: the unregistered tag "test" fails with the no-factory
error naming the tag. -/
theorem c4_custom_dispatch_witness :
    create_provider (⟨[]⟩ : ProviderRegistry Nat) extOk [] "n"
      ⟨.Custom "test", none, none, none⟩ = .error (noFactoryMsg "test") :=
  (c4_custom_dispatch ⟨[]⟩ extOk [] "n" "test" ⟨.Custom "test", none, none, none⟩ rfl).1 rfl

/-- Claim C5: for a config with the Synapse kind, create_provider looks up
the fixed tag "synapse": when absent it fails with the fixed message
telling the caller to register a factory for that tag; when a factory is
registered it returns exactly that factory applied to (name, config),
success or failure. -/
theorem c5_synapse_dispatch {α : Type} (reg : ProviderRegistry α) (ext : Providers α)
    (env : Env) (name : String) (config : ProviderConfig)
    (ht : config.api_type = .Synapse) :
    (reg.getFactory "synapse" = none →
      create_provider reg ext env name config = .error synapseMissingMsg) ∧
    (∀ f, reg.getFactory "synapse" = some f →
      create_provider reg ext env name config = f name config) := by
  refine ⟨fun h => ?_, fun f h => ?_⟩
  · simp [create_provider, ht, h]
  · simp [create_provider, ht, h]

/-- Claim C5 witness: a registered synapse factory that fails has its error
propagated unmodified, with the name it was invoked with. -/
theorem c5_synapse_dispatch_witness :
    create_provider (⟨[("synapse", boomFactory)]⟩ : ProviderRegistry Nat) extOk [] "syn"
      ⟨.Synapse, none, none, none⟩ = .error ("boom " ++ "syn") :=
  (c5_synapse_dispatch ⟨[("synapse", boomFactory)]⟩ extOk [] "syn"
    ⟨.Synapse, none, none, none⟩ rfl).2 boomFactory rfl

/-- Claim C6: each canonical name parses, case-sensitively, to its named
variant, and every other string parses to the catch-all carrying it
verbatim and renders back to itself. -/
theorem c6_from_string_spec (s : String) :
    (ProviderApiType.from_string "anthropic" = .Anthropic ∧
     ProviderApiType.from_string "openai" = .OpenAi ∧
     ProviderApiType.from_string "google" = .Google ∧
     ProviderApiType.from_string "groq" = .Groq ∧
     ProviderApiType.from_string "mistral" = .Mistral ∧
     ProviderApiType.from_string "synapse" = .Synapse) ∧
    (s ∉ canonicalNames →
      ProviderApiType.from_string s = .Custom s ∧
      ProviderApiType.to_string (ProviderApiType.from_string s) = s) := by
  refine ⟨by decide, fun h => ?_⟩
  simp only [canonicalNames, List.mem_cons, List.not_mem_nil, or_false] at h
  push_neg at h
  obtain ⟨h1, h2, h3, h4, h5, h6⟩ := h
  constructor <;>
    simp [ProviderApiType.from_string, ProviderApiType.to_string, h1, h2, h3, h4, h5, h6]

/-- Claim C6 witness: the non-canonical string "my-provider" (and "ANTHROPIC",
which differs from a canonical name only by case) parse to the catch-all
carrying them verbatim. -/
theorem c6_from_string_spec_witness :
    ProviderApiType.from_string "my-provider" = .Custom "my-provider" ∧
    ProviderApiType.to_string (ProviderApiType.from_string "my-provider") = "my-provider" :=
  (c6_from_string_spec "my-provider").2 (by decide)

/-- Claim C7: prefix detection lower-cases its input and tests the literal
prefixes in the fixed source order, returning the first match and none
otherwise; the listed concrete model ids evaluate as stated, and each
ordered clause of the chain behaves as the claim describes. -/
theorem c7_detect_table :
    ( detect_provider_by_prefix "claude-sonnet-4" = some "anthropic" ∧
      detect_provider_by_prefix "gpt-4o" = some "openai" ∧
      detect_provider_by_prefix "o1-mini" = some "openai" ∧
      detect_provider_by_prefix "kimi-k2.5" = some "kimi" ∧
      detect_provider_by_prefix "moonshot-v1" = some "kimi" ∧
      detect_provider_by_prefix "gemini-2.0-flash" = some "google" ∧
      detect_provider_by_prefix "llama-3.3-70b" = some "groq" ∧
      detect_provider_by_prefix "mixtral-8x7b" = some "groq" ∧
      detect_provider_by_prefix "mistral-large" = some "mistral" ∧
      detect_provider_by_prefix "codestral-latest" = some "mistral" ∧
      detect_provider_by_prefix "CLAUDE-X" = some "anthropic" ∧
      detect_provider_by_prefix "unknown-model" = none ∧
      detect_provider_by_prefix "" = none) ∧
    (∀ s, strStartsWith (toLowerStr s) "claude" = true →
      detect_provider_by_prefix s = some "anthropic") ∧
    (∀ s, strStartsWith (toLowerStr s) "claude" = false →
      strStartsWith (toLowerStr s) "gpt" = true ∨ strStartsWith (toLowerStr s) "o1" = true →
      detect_provider_by_prefix s = some "openai") ∧
    (∀ s, strStartsWith (toLowerStr s) "claude" = false →
      strStartsWith (toLowerStr s) "gpt" = false →
      strStartsWith (toLowerStr s) "o1" = false →
      strStartsWith (toLowerStr s) "kimi" = true ∨
        strStartsWith (toLowerStr s) "moonshot" = true →
      detect_provider_by_prefix s = some "kimi") ∧
    (∀ s, strStartsWith (toLowerStr s) "claude" = false →
      strStartsWith (toLowerStr s) "gpt" = false →
      strStartsWith (toLowerStr s) "o1" = false →
      strStartsWith (toLowerStr s) "kimi" = false →
      strStartsWith (toLowerStr s) "moonshot" = false →
      strStartsWith (toLowerStr s) "gemini" = true →
      detect_provider_by_prefix s = some "google") ∧
    (∀ s, strStartsWith (toLowerStr s) "claude" = false →
      strStartsWith (toLowerStr s) "gpt" = false →
      strStartsWith (toLowerStr s) "o1" = false →
      strStartsWith (toLowerStr s) "kimi" = false →
      strStartsWith (toLowerStr s) "moonshot" = false →
      strStartsWith (toLowerStr s) "gemini" = false →
      strStartsWith (toLowerStr s) "llama" = true ∨
        strStartsWith (toLowerStr s) "mixtral" = true →
      detect_provider_by_prefix s = some "groq") ∧
    (∀ s, strStartsWith (toLowerStr s) "claude" = false →
      strStartsWith (toLowerStr s) "gpt" = false →
      strStartsWith (toLowerStr s) "o1" = false →
      strStartsWith (toLowerStr s) "kimi" = false →
      strStartsWith (toLowerStr s) "moonshot" = false →
      strStartsWith (toLowerStr s) "gemini" = false →
      strStartsWith (toLowerStr s) "llama" = false →
      strStartsWith (toLowerStr s) "mixtral" = false →
      strStartsWith (toLowerStr s) "mistral" = true ∨
        strStartsWith (toLowerStr s) "codestral" = true →
      detect_provider_by_prefix s = some "mistral") ∧
    (∀ s, strStartsWith (toLowerStr s) "claude" = false →
      strStartsWith (toLowerStr s) "gpt" = false →
      strStartsWith (toLowerStr s) "o1" = false →
      strStartsWith (toLowerStr s) "kimi" = false →
      strStartsWith (toLowerStr s) "moonshot" = false →
      strStartsWith (toLowerStr s) "gemini" = false →
      strStartsWith (toLowerStr s) "llama" = false →
      strStartsWith (toLowerStr s) "mixtral" = false →
      strStartsWith (toLowerStr s) "mistral" = false →
      strStartsWith (toLowerStr s) "codestral" = false →
      detect_provider_by_prefix s = none) := by
  refine ⟨⟨rfl, rfl, rfl, rfl, rfl, rfl, rfl, rfl, rfl, rfl, rfl, rfl, rfl⟩,
    ?_, ?_, ?_, ?_, ?_, ?_, ?_⟩
  · intro s h1
    simp [ detect_provider_by_prefix, h1]
  · intro s h1 h2
    rcases h2 with h2 | h2 <;> simp [ detect_provider_by_prefix, h1, h2]
  · intro s h1 h2 h3 h4
    rcases h4 with h4 | h4 <;> simp [ detect_provider_by_prefix, h1, h2, h3, h4]
  · intro s h1 h2 h3 h4 h5 h6
    simp [ detect_provider_by_prefix, h1, h2, h3, h4, h5, h6]
  · intro s h1 h2 h3 h4 h5 h6 h7
    rcases h7 with h7 | h7 <;> simp [ detect_provider_by_prefix, h1, h2, h3, h4, h5, h6, h7]
  · intro s h1 h2 h3 h4 h5 h6 h7 h8 h9
    rcases h9 with h9 | h9 <;>
      simp [ detect_provider_by_prefix, h1, h2, h3, h4, h5, h6, h7, h8, h9]
  · intro s h1 h2 h3 h4 h5 h6 h7 h8 h9 h10
    simp [ detect_provider_by_prefix, h1, h2, h3, h4, h5, h6, h7, h8, h9, h10]

/-- Claim C7 witness: the first clause of the chain at a fresh input. -/
theorem c7_detect_table_witness :
    detect_provider_by_prefix "claude-zz" = some "anthropic" :=
  c7_detect_table.2.1 "claude-zz" rfl

/-- Claim C8: the keys of the default provider catalog, in insertion order,
are exactly the eleven expected names; the default model catalog has
exactly twenty entries and every entry names a provider of the default
catalog. -/
theorem c8_default_catalogs :
    default_providers.map Prod.fst =
      ["anthropic", "openai", "ollama", "lmstudio", "groq", "google", "mistral",
       "openrouter", "together", "kimi", "synapse"] ∧
    default_models.length = 20 ∧
    (default_models.all fun m =>
      (default_providers.map Prod.fst).contains m.provider) = true :=
  ⟨rfl, rfl, rfl⟩

/-- Claim C9 counterexample: the factory receives the whole config, whose
api_type field differs between the two calls, so a factory that inspects
it returns different results for Synapse and Custom "synapse". -/
theorem c9_counterexample :
    create_provider (⟨[("synapse", apiTypeSensitiveFactory)]⟩ : ProviderRegistry Nat)
      extOk [] "p" ⟨.Synapse, none, none, none⟩ = .ok 1 ∧
    create_provider (⟨[("synapse", apiTypeSensitiveFactory)]⟩ : ProviderRegistry Nat)
      extOk [] "p" ⟨.Custom "synapse", none, none, none⟩ = .ok 2 :=
  ⟨rfl, rfl⟩

/-- Claim C9 (amended): with a factory registered under "synapse", the
Synapse kind and the Custom "synapse" kind invoke that same factory with
the same name and with configs that agree on every field except api_type;
whenever the factory gives the same result on the two configs the two
calls agree, and with no factory registered both fail, with their two
distinct messages. -/
theorem c9_synapse_custom_relation {α : Type} (reg : ProviderRegistry α)
    (ext : Providers α) (env : Env) (name : String) (b e k : Option String) :
    (∀ f, reg.getFactory "synapse" = some f →
      create_provider reg ext env name ⟨.Synapse, b, e, k⟩ = f name ⟨.Synapse, b, e, k⟩ ∧
      create_provider reg ext env name ⟨.Custom "synapse", b, e, k⟩ =
        f name ⟨.Custom "synapse", b, e, k⟩ ∧
      (f name ⟨.Synapse, b, e, k⟩ = f name ⟨.Custom "synapse", b, e, k⟩ →
        create_provider reg ext env name ⟨.Synapse, b, e, k⟩ =
          create_provider reg ext env name ⟨.Custom "synapse", b, e, k⟩)) ∧
    (reg.getFactory "synapse" = none →
      create_provider reg ext env name ⟨.Synapse, b, e, k⟩ = .error synapseMissingMsg ∧
      create_provider reg ext env name ⟨.Custom "synapse", b, e, k⟩ =
        .error (noFactoryMsg "synapse")) := by
  refine ⟨fun f hf => ⟨?_, ?_, fun hagree => ?_⟩, fun hf => ⟨?_, ?_⟩⟩ <;>
    simp [create_provider, hf, *]

/-- Claim C9 witness: with a factory insensitive to api_type the two calls
return the same result. -/
theorem c9_synapse_custom_relation_witness :
    create_provider (⟨[("synapse", okFactory)]⟩ : ProviderRegistry Nat) extOk [] "p"
      ⟨.Synapse, none, none, none⟩ =
    create_provider (⟨[("synapse", okFactory)]⟩ : ProviderRegistry Nat) extOk [] "p"
      ⟨.Custom "synapse", none, none, none⟩ :=
  ((c9_synapse_custom_relation ⟨[("synapse", okFactory)]⟩ extOk [] "p"
    none none none).1 okFactory rfl).2.2 rfl

/-- Claim C10: on every input, prefix detection returns either no match or
one of the six provider names of its match arms, each of which is a key of
the default provider catalog. -/
theorem c10_detect_range (s : String) :
    detect_provider_by_prefix s = none ∨
    ∃ p, detect_provider_by_prefix s = some p ∧
      p ∈ ["anthropic", "openai", "kimi", "google", "groq", "mistral"] ∧
      p ∈ default_providers.map Prod.fst := by
  simp only [ detect_provider_by_prefix]
  split_ifs
  · exact Or.inr ⟨"anthropic", rfl, by decide, by decide⟩
  · exact Or.inr ⟨"openai", rfl, by decide, by decide⟩
  · exact Or.inr ⟨"kimi", rfl, by decide, by decide⟩
  · exact Or.inr ⟨"google", rfl, by decide, by decide⟩
  · exact Or.inr ⟨"groq", rfl, by decide, by decide⟩
  · exact Or.inr ⟨"mistral", rfl, by decide, by decide⟩
  · exact Or.inl rfl

end AgentCore
